import Mathlib

/-!
Verification of the SpecGate response-interception pipeline (proxy.go).

The Go source is shallowly embedded: the interception hook
`validateResponse`, the mode parser `parseMode`, the resolver-failure
classifier `isUndocumentedEndpoint` and the logging handler's `WithAttrs`
are translated into pure Lean functions.  External collaborators (the
route resolver and the schema validator) are passed in as oracle
arguments, exactly as the spec treats them (opaque `Resolve` and
`Validate`).  The one-shot body stream is modelled as the list of bytes
(characters) still readable from it: consuming `n` bytes turns the stream
`l` into `l.drop n`, and whatever remains in the stream field after the
hook runs is what the transport delivers to the client.
-/

namespace SpecGate

/-- Log levels of the slog-based logging facility. -/
inductive LogLevel where
  | debug
  | info
  | warn
  | error
deriving DecidableEq, Repr

/-- Enforcement modes (Go `type Mode string` with the three constants). -/
inductive Mode where
  | strict
  | warn
  | report
deriving DecidableEq, Repr

/-- Go `strings.ToLower`, embedded as a per-character map
(`Char.toLower` handles the basic latin range, which covers every string
the pipeline compares). -/
def goToLower (s : String) : String :=
  ⟨s.data.map Char.toLower⟩

/-- Case-insensitive key comparison, modelling Go `http.Header`'s
canonicalised, case-insensitive key access. -/
def keyEq (a b : String) : Bool :=
  goToLower a == goToLower b

/-- Go `strings.Contains s sub`: `sub` occurs as a contiguous substring. -/
def goContains (s sub : String) : Bool :=
  decide (sub.data <:+: s.data)

/-- Header mapping: list of key/value pairs, accessed case-insensitively. -/
abbrev Headers : Type := List (String × String)

/-- Go `http.Header.Get`: first value for the key, `""` when absent. -/
def headerGet (h : Headers) (k : String) : String :=
  match List.find? (fun p => keyEq p.1 k) h with
  | some p => p.2
  | none => ""

/-- Go `http.Header.Del`: remove every value for the key. -/
def headerDel (h : Headers) (k : String) : Headers :=
  List.filter (fun p => !keyEq p.1 k) h

/-- Go `http.Header.Set`: replace all values for the key with one value. -/
def headerSet (h : Headers) (k v : String) : Headers :=
  headerDel h k ++ [(k, v)]

/-- Decimal digit accumulator for `parseGoInt`; `none` on a non-digit. -/
def digitsVal (cs : List Char) : Option Nat :=
  cs.foldl
    (fun acc c =>
      match acc with
      | none => none
      | some n => if c.isDigit then some (n * 10 + (c.toNat - 48)) else none)
    (some 0)

/-- Go `strconv.ParseInt(s, 10, 64)`: optional sign, decimal digits,
failure (`none`) on empty input, a stray character, or 64-bit overflow
(Go reports overflow through a non-nil error, so the caller's
`err == nil` test fails). -/
def parseGoInt (s : String) : Option Int :=
  match s.data with
  | [] => none
  | '+' :: rest =>
    match rest, digitsVal rest with
    | _ :: _, some n => if n < 2 ^ 63 then some (n : Int) else none
    | _, _ => none
  | '-' :: rest =>
    match rest, digitsVal rest with
    | _ :: _, some n => if n ≤ 2 ^ 63 then some (-(n : Int)) else none
    | _, _ => none
  | l =>
    match digitsVal l with
    | some n => if n < 2 ^ 63 then some (n : Int) else none
    | none => none

/-- `const maxSize = 10 * 1024 * 1024` (proxy.go line 132). -/
def maxSize : Nat := 10 * 1024 * 1024

/-- The declared-length gate (proxy.go lines 133-138): yields the parsed
size when a non-empty `Content-Length` parses and exceeds `maxSize`,
otherwise `none` (absent header, malformed header, or size in bounds). -/
def oversizedDeclared (contentLength : String) : Option Int :=
  if contentLength = "" then none
  else
    match parseGoInt contentLength with
    | some size => if (maxSize : Int) < size then some size else none
    | none => none

/-- The six undocumented-endpoint phrasings (proxy.go lines 236-243). -/
def undocumentedPatterns : List String :=
  ["no matching operation", "path not found", "no route found",
   "operation not found", "no match found", "unknown path"]

/-- `isUndocumentedEndpoint` (proxy.go lines 229-252) on the error's
message text: lowercase the message, then substring-match each pattern. -/
def isUndocumentedEndpoint (errMsg : String) : Bool :=
  undocumentedPatterns.any (fun pattern => goContains (goToLower errMsg) pattern)

/-- A single-quote character as a string (used to spell out the byte
content of the Go error message literals). -/
def sq : String := ⟨[Char.ofNat 39]⟩

/-- `parseMode` (proxy.go lines 216-227): switch on `strings.ToLower`. -/
def parseMode (mode : String) : Except String Mode :=
  if goToLower mode = "strict" then Except.ok Mode.strict
  else if goToLower mode = "warn" then Except.ok Mode.warn
  else if goToLower mode = "report" then Except.ok Mode.report
  else Except.error ("invalid mode " ++ sq ++ mode ++ sq ++ ": must be one of "
    ++ sq ++ "strict" ++ sq ++ ", " ++ sq ++ "warn" ++ sq ++ ", or "
    ++ sq ++ "report" ++ sq)

/-- One hexadecimal digit, lowercase, as emitted by Go's JSON encoder. -/
def hexDigitChar (n : Nat) : Char :=
  if n < 10 then Char.ofNat (48 + n) else Char.ofNat (97 + (n - 10))

/-- Escaping of one character by Go `encoding/json` (string values in
`json.Marshal`, with the default HTML escaping of `<`, `>`, `&`). -/
def goEscapeChar (c : Char) : List Char :=
  if c = '"' then ['\\', '"']
  else if c = '\\' then ['\\', '\\']
  else if c = '\n' then ['\\', 'n']
  else if c = '\r' then ['\\', 'r']
  else if c = '\t' then ['\\', 't']
  else if c.toNat < 32 then
    ['\\', 'u', '0', '0', hexDigitChar (c.toNat / 16), hexDigitChar (c.toNat % 16)]
  else if c = '<' then ['\\', 'u', '0', '0', '3', 'c']
  else if c = '>' then ['\\', 'u', '0', '0', '3', 'e']
  else if c = '&' then ['\\', 'u', '0', '0', '2', '6']
  else if c.toNat = 8232 then ['\\', 'u', '2', '0', '2', '8']
  else if c.toNat = 8233 then ['\\', 'u', '2', '0', '2', '9']
  else [c]

/-- Go JSON string quoting: escape each character and wrap in quotes. -/
def goQuote (s : String) : String :=
  ⟨'"' :: (s.data.map goEscapeChar).flatten ++ ['"']⟩

/-- Byte-wise (for latin text, character-wise) lexicographic order on
keys, as used by Go's `encoding/json` when sorting map keys. -/
def charListLt : List Char → List Char → Bool
  | [], [] => false
  | [], _ :: _ => true
  | _ :: _, [] => false
  | a :: as, b :: bs =>
    if a < b then true
    else if b < a then false
    else charListLt as bs

/-- Insertion into a key-sorted pair list. -/
def insertPair (p : String × String) : List (String × String) → List (String × String)
  | [] => [p]
  | q :: qs => if charListLt q.1.data p.1.data then q :: insertPair p qs else p :: q :: qs

/-- Insertion sort of key/value pairs by key (Go `encoding/json` sorts
map keys before emitting them). -/
def sortPairs : List (String × String) → List (String × String)
  | [] => []
  | p :: ps => insertPair p (sortPairs ps)

/-- Comma-join of rendered fields. -/
def joinComma : List String → String
  | [] => ""
  | [x] => x
  | x :: y :: xs => x ++ "," ++ joinComma (y :: xs)

/-- Go `json.Marshal` on a `map[string]string`: keys sorted, each
key/value pair rendered as a quoted key, a colon and a quoted value. -/
def goJsonMarshalStringMap (m : List (String × String)) : String :=
  "\x7b" ++ joinComma ((sortPairs m).map (fun p => goQuote p.1 ++ ":" ++ goQuote p.2)) ++ "\x7d"

/-- Byte length of a character sequence under UTF-8, modelling Go's
`len` on the `[]byte` produced by `json.Marshal`. -/
def utf8Len (l : List Char) : Nat :=
  l.foldl (fun n c => n + c.utf8Size) 0

/-- The upstream response as seen by the interception hook: status,
headers, originating request method and path, and the body stream.
`body` is the sequence of bytes still readable from the stream; after
the hook it is exactly what the transport copies to the client. -/
structure HTTPResponse where
  status : Nat
  headers : Headers
  reqMethod : String
  reqPath : String
  body : List Char
deriving DecidableEq, Repr

/-- One emitted log record: level, message, ordered call-site attributes. -/
structure LogEntry where
  level : LogLevel
  msg : String
  attrs : List (String × String)
deriving DecidableEq, Repr

/-- Result of running the interception hook: the (possibly rewritten)
response, the log records emitted, the hook's returned error (`none`
models Go `return nil`), and the number of bytes the hook consumed from
the body stream. -/
structure HookResult where
  resp : HTTPResponse
  logs : List LogEntry
  err : Option String
  readCount : Nat
deriving DecidableEq, Repr

/-- `validateResponse` (proxy.go lines 126-214).  The route resolver and
the schema validator are external collaborators, passed as oracles:
`findRoute` is `router.FindRoute`'s outcome for this request (`.error
msg` carries the error text), `validate` is `openapi3filter.
ValidateResponse`'s outcome (`some detail` carries the failure text). -/
def validateResponse (mode : Mode) (findRoute : Except String Unit)
    (validate : Option String) (resp : HTTPResponse) : HookResult :=
  if goContains (headerGet resp.headers "Content-Type") "application/json" then
    match oversizedDeclared (headerGet resp.headers "Content-Length") with
    | some size =>
      ⟨resp,
       [⟨LogLevel.warn, "Response too large, skipping validation", [("size", toString size)]⟩],
       none, 0⟩
    | none =>
      if maxSize < (resp.body.take (maxSize + 1)).length then
        ⟨{ resp with body := resp.body.drop (maxSize + 1) },
         [⟨LogLevel.warn, "Response too large, skipping validation",
           [("size", toString (resp.body.take (maxSize + 1)).length)]⟩],
         none, (resp.body.take (maxSize + 1)).length⟩
      else
        match findRoute with
        | Except.error msg =>
          if isUndocumentedEndpoint msg then
            ⟨{ resp with body := resp.body.take (maxSize + 1) },
             [⟨LogLevel.warn, "Undocumented endpoint",
               [("method", resp.reqMethod), ("path", resp.reqPath)]⟩],
             none, (resp.body.take (maxSize + 1)).length⟩
          else
            ⟨{ resp with body := resp.body.take (maxSize + 1) },
             [⟨LogLevel.error, "Error finding route",
               [("error", msg), ("method", resp.reqMethod), ("path", resp.reqPath)]⟩],
             some ("route finding error: " ++ msg),
             (resp.body.take (maxSize + 1)).length⟩
        | Except.ok _ =>
          match validate with
          | none =>
            ⟨{ resp with body := resp.body.take (maxSize + 1) }, [], none,
             (resp.body.take (maxSize + 1)).length⟩
          | some detail =>
            if mode = Mode.strict then
              ⟨{ status := 500,
                 headers :=
                   headerDel (headerDel (headerDel (headerDel
                     (headerSet (headerSet resp.headers
                       "Content-Type" "application/json")
                       "Content-Length"
                       (toString (utf8Len (goJsonMarshalStringMap
                         [("error", "Response validation failed"),
                          ("details", detail)]).data)))
                     "Content-Encoding") "Transfer-Encoding") "ETag") "Last-Modified",
                 reqMethod := resp.reqMethod,
                 reqPath := resp.reqPath,
                 body := (goJsonMarshalStringMap
                   [("error", "Response validation failed"),
                    ("details", detail)]).data },
               [⟨LogLevel.error, "Response validation failed",
                 [("error", detail), ("method", resp.reqMethod),
                  ("path", resp.reqPath), ("status", toString resp.status)]⟩],
               none, (resp.body.take (maxSize + 1)).length⟩
            else
              ⟨{ resp with body := resp.body.take (maxSize + 1) },
               [⟨LogLevel.error, "Response validation failed",
                 [("error", detail), ("method", resp.reqMethod),
                  ("path", resp.reqPath), ("status", toString resp.status)]⟩],
               none, (resp.body.take (maxSize + 1)).length⟩
  else
    ⟨resp, [], none, 0⟩

/-- The logging facility's handler (proxy.go lines 255-259): output sink
identity, minimum level, bound attributes. -/
structure ColoredHandler where
  output : Nat
  level : LogLevel
  attrs : List (String × String)
deriving DecidableEq, Repr

/-- `WithAttrs` (proxy.go lines 324-334): a fresh attribute slice of
length `len(h.attrs) + len(attrs)` is allocated and both lists are
copied into it, which is exactly list concatenation; the original
handler value is not touched. -/
def ColoredHandler.withAttrs (h : ColoredHandler) (attrs : List (String × String)) :
    ColoredHandler :=
  { output := h.output, level := h.level, attrs := h.attrs ++ attrs }

/-- `Enabled` (proxy.go lines 270-272): `level >= h.level` under the
slog ordering Debug < Info < Warn < Error. -/
def LogLevel.toNat : LogLevel → Nat
  | LogLevel.debug => 0
  | LogLevel.info => 1
  | LogLevel.warn => 2
  | LogLevel.error => 3

/-- `Enabled` (proxy.go lines 270-272). -/
def ColoredHandler.enabled (h : ColoredHandler) (level : LogLevel) : Bool :=
  h.level.toNat ≤ level.toNat

/-- A small JSON response used to instantiate the theorems below. -/
def sampleJsonResp : HTTPResponse :=
  ⟨200, [("Content-Type", "application/json"), ("ETag", "abc"), ("X-Request-Id", "42")],
   "GET", "/a", "[]".data⟩

theorem keyEq_iff {a b : String} : keyEq a b = true ↔ goToLower a = goToLower b := by
  simp [keyEq]

theorem keyEq_false_iff {a b : String} : keyEq a b = false ↔ goToLower a ≠ goToLower b := by
  simp [keyEq]

theorem keyEq_self (a : String) : keyEq a a = true := by
  simp [keyEq]

theorem find?_filter_of_imp {α : Type} (p f : α → Bool) (l : List α)
    (h : ∀ a, p a = true → f a = true) :
    List.find? p (List.filter f l) = List.find? p l := by
  induction l with
  | nil => rfl
  | cons a t ih =>
    by_cases hf : f a = true
    · by_cases hp : p a = true
      · simp [List.filter_cons, hf, List.find?, hp]
      · simp only [Bool.not_eq_true] at hp
        simp [List.filter_cons, hf, List.find?, hp, ih]
    · have hp : p a = false := by
        cases hpa : p a
        · rfl
        · exact absurd (h a hpa) hf
      simp only [Bool.not_eq_true] at hf
      simp [List.filter_cons, hf, List.find?, hp, ih]

theorem headerGet_set_self (h : Headers) (k v : String) :
    headerGet (headerSet h k v) k = v := by
  unfold headerGet headerSet headerDel
  rw [List.find?_append]
  have h1 : List.find? (fun p => keyEq p.1 k) (List.filter (fun p => !keyEq p.1 k) h) = none := by
    rw [List.find?_eq_none]
    intro p hp
    have := List.of_mem_filter hp
    simp only [Bool.not_eq_true'] at this
    simp [this]
  rw [h1]
  simp [keyEq_self]

theorem keyEq_filter_imp {k q : String} (hne : keyEq k q = false) :
    ∀ p : String × String, keyEq p.1 q = true → (!keyEq p.1 k) = true := by
  intro p hp
  rw [keyEq_iff] at hp
  rw [Bool.not_eq_true', keyEq_false_iff]
  intro hc
  exact keyEq_false_iff.mp hne (hc.symm.trans hp)

theorem headerGet_set_ne (h : Headers) (k v q : String) (hne : keyEq k q = false) :
    headerGet (headerSet h k v) q = headerGet h q := by
  unfold headerGet headerSet headerDel
  rw [List.find?_append]
  have h2 : List.find? (fun p => keyEq p.1 q) [(k, v)] = none := by
    simp [List.find?, hne]
  rw [h2, find?_filter_of_imp _ _ _ (keyEq_filter_imp hne)]
  cases List.find? (fun p => keyEq p.1 q) h <;> rfl

theorem headerGet_del_self (h : Headers) (k : String) :
    headerGet (headerDel h k) k = "" := by
  unfold headerGet headerDel
  have h1 : List.find? (fun p => keyEq p.1 k) (List.filter (fun p => !keyEq p.1 k) h) = none := by
    rw [List.find?_eq_none]
    intro p hp
    have := List.of_mem_filter hp
    simp only [Bool.not_eq_true'] at this
    simp [this]
  rw [h1]

theorem headerGet_del_ne (h : Headers) (k q : String) (hne : keyEq k q = false) :
    headerGet (headerDel h k) q = headerGet h q := by
  unfold headerGet headerDel
  rw [find?_filter_of_imp _ _ _ (keyEq_filter_imp hne)]

theorem take_maxSize_lt_iff (l : List Char) :
    maxSize < (l.take (maxSize + 1)).length ↔ maxSize < l.length := by
  rw [List.length_take]
  omega

theorem take_maxSize_eq_self {l : List Char} (h : l.length ≤ maxSize) :
    l.take (maxSize + 1) = l :=
  List.take_of_length_le (by omega)

theorem take_maxSize_length_eq {l : List Char} (h : l.length ≤ maxSize) :
    (l.take (maxSize + 1)).length = l.length := by
  rw [List.length_take]
  omega

theorem vr_not_json (mode : Mode) (fr : Except String Unit) (v : Option String)
    (resp : HTTPResponse)
    (h : goContains (headerGet resp.headers "Content-Type") "application/json" = false) :
    validateResponse mode fr v resp = ⟨resp, [], none, 0⟩ := by
  simp [validateResponse, h]

theorem vr_declared_skip (mode : Mode) (fr : Except String Unit) (v : Option String)
    (resp : HTTPResponse) (size : Int)
    (h1 : goContains (headerGet resp.headers "Content-Type") "application/json" = true)
    (h2 : oversizedDeclared (headerGet resp.headers "Content-Length") = some size) :
    validateResponse mode fr v resp =
      ⟨resp,
       [⟨LogLevel.warn, "Response too large, skipping validation", [("size", toString size)]⟩],
       none, 0⟩ := by
  simp [validateResponse, h1, h2]

theorem vr_actual_skip (mode : Mode) (fr : Except String Unit) (v : Option String)
    (resp : HTTPResponse)
    (h1 : goContains (headerGet resp.headers "Content-Type") "application/json" = true)
    (h2 : oversizedDeclared (headerGet resp.headers "Content-Length") = none)
    (h3 : maxSize < resp.body.length) :
    validateResponse mode fr v resp =
      ⟨{ resp with body := resp.body.drop (maxSize + 1) },
       [⟨LogLevel.warn, "Response too large, skipping validation",
         [("size", toString (maxSize + 1))]⟩],
       none, maxSize + 1⟩ := by
  have h3' : maxSize < (resp.body.take (maxSize + 1)).length := (take_maxSize_lt_iff _).mpr h3
  have hlen : (resp.body.take (maxSize + 1)).length = maxSize + 1 := by
    rw [List.length_take]
    omega
  simp [validateResponse, h1, h2, h3', hlen]

theorem vr_route_undoc (mode : Mode) (v : Option String) (resp : HTTPResponse) (msg : String)
    (h1 : goContains (headerGet resp.headers "Content-Type") "application/json" = true)
    (h2 : oversizedDeclared (headerGet resp.headers "Content-Length") = none)
    (h3 : resp.body.length ≤ maxSize)
    (h4 : isUndocumentedEndpoint msg = true) :
    validateResponse mode (Except.error msg) v resp =
      ⟨resp,
       [⟨LogLevel.warn, "Undocumented endpoint",
         [("method", resp.reqMethod), ("path", resp.reqPath)]⟩],
       none, resp.body.length⟩ := by
  have h3' : ¬ maxSize < (resp.body.take (maxSize + 1)).length := by
    rw [take_maxSize_lt_iff]
    omega
  have hlt : ¬ maxSize < resp.body.length := by omega
  simp [validateResponse, h1, h2, h3', hlt, h4, take_maxSize_eq_self h3, take_maxSize_length_eq h3]

theorem vr_route_internal (mode : Mode) (v : Option String) (resp : HTTPResponse) (msg : String)
    (h1 : goContains (headerGet resp.headers "Content-Type") "application/json" = true)
    (h2 : oversizedDeclared (headerGet resp.headers "Content-Length") = none)
    (h3 : resp.body.length ≤ maxSize)
    (h4 : isUndocumentedEndpoint msg = false) :
    validateResponse mode (Except.error msg) v resp =
      ⟨resp,
       [⟨LogLevel.error, "Error finding route",
         [("error", msg), ("method", resp.reqMethod), ("path", resp.reqPath)]⟩],
       some ("route finding error: " ++ msg), resp.body.length⟩ := by
  have h3' : ¬ maxSize < (resp.body.take (maxSize + 1)).length := by
    rw [take_maxSize_lt_iff]
    omega
  have hlt : ¬ maxSize < resp.body.length := by omega
  simp [validateResponse, h1, h2, h3', hlt, h4, take_maxSize_eq_self h3, take_maxSize_length_eq h3]

theorem vr_valid_pass (mode : Mode) (u : Unit) (resp : HTTPResponse)
    (h1 : goContains (headerGet resp.headers "Content-Type") "application/json" = true)
    (h2 : oversizedDeclared (headerGet resp.headers "Content-Length") = none)
    (h3 : resp.body.length ≤ maxSize) :
    validateResponse mode (Except.ok u) none resp = ⟨resp, [], none, resp.body.length⟩ := by
  have h3' : ¬ maxSize < (resp.body.take (maxSize + 1)).length := by
    rw [take_maxSize_lt_iff]
    omega
  have hlt : ¬ maxSize < resp.body.length := by omega
  simp [validateResponse, h1, h2, h3', hlt, take_maxSize_eq_self h3, take_maxSize_length_eq h3]

theorem vr_valid_fail_strict (u : Unit) (resp : HTTPResponse) (detail : String)
    (h1 : goContains (headerGet resp.headers "Content-Type") "application/json" = true)
    (h2 : oversizedDeclared (headerGet resp.headers "Content-Length") = none)
    (h3 : resp.body.length ≤ maxSize) :
    validateResponse Mode.strict (Except.ok u) (some detail) resp =
      ⟨{ status := 500,
         headers :=
           headerDel (headerDel (headerDel (headerDel
             (headerSet (headerSet resp.headers "Content-Type" "application/json")
               "Content-Length"
               (toString (utf8Len (goJsonMarshalStringMap
                 [("error", "Response validation failed"), ("details", detail)]).data)))
             "Content-Encoding") "Transfer-Encoding") "ETag") "Last-Modified",
         reqMethod := resp.reqMethod,
         reqPath := resp.reqPath,
         body := (goJsonMarshalStringMap
           [("error", "Response validation failed"), ("details", detail)]).data },
       [⟨LogLevel.error, "Response validation failed",
         [("error", detail), ("method", resp.reqMethod),
          ("path", resp.reqPath), ("status", toString resp.status)]⟩],
       none, resp.body.length⟩ := by
  have h3' : ¬ maxSize < (resp.body.take (maxSize + 1)).length := by
    rw [take_maxSize_lt_iff]
    omega
  have hlt : ¬ maxSize < resp.body.length := by omega
  simp [validateResponse, h1, h2, h3', hlt, take_maxSize_length_eq h3]

theorem vr_valid_fail_nonstrict (mode : Mode) (u : Unit) (resp : HTTPResponse) (detail : String)
    (h1 : goContains (headerGet resp.headers "Content-Type") "application/json" = true)
    (h2 : oversizedDeclared (headerGet resp.headers "Content-Length") = none)
    (h3 : resp.body.length ≤ maxSize)
    (hm : mode ≠ Mode.strict) :
    validateResponse mode (Except.ok u) (some detail) resp =
      ⟨resp,
       [⟨LogLevel.error, "Response validation failed",
         [("error", detail), ("method", resp.reqMethod),
          ("path", resp.reqPath), ("status", toString resp.status)]⟩],
       none, resp.body.length⟩ := by
  have h3' : ¬ maxSize < (resp.body.take (maxSize + 1)).length := by
    rw [take_maxSize_lt_iff]
    omega
  have hlt : ¬ maxSize < resp.body.length := by omega
  simp [validateResponse, h1, h2, h3', hlt, hm, take_maxSize_eq_self h3, take_maxSize_length_eq h3]

theorem string_data_append (a b : String) : (a ++ b).data = a.data ++ b.data := rfl

theorem marshal_error_details (d : String) :
    goJsonMarshalStringMap [("error", "Response validation failed"), ("details", d)] =
      "\x7b\"details\":" ++ goQuote d ++ ",\"error\":\"Response validation failed\"\x7d" := by
  have h : goJsonMarshalStringMap [("error", "Response validation failed"), ("details", d)] =
      "\x7b" ++ (goQuote "details" ++ ":" ++ goQuote d ++ "," ++
        (goQuote "error" ++ ":" ++ goQuote "Response validation failed")) ++ "\x7d" := rfl
  rw [h, String.ext_iff]
  simp only [string_data_append, List.append_assoc]
  rfl

theorem parseGoInt_empty : parseGoInt "" = none := rfl

theorem oversizedDeclared_of_parse {cl : String} {n : Int}
    (hp : parseGoInt cl = some n) (hn : (maxSize : Int) < n) :
    oversizedDeclared cl = some n := by
  have hne : cl ≠ "" := by
    intro h
    rw [h, parseGoInt_empty] at hp
    exact Option.noConfusion hp
  unfold oversizedDeclared
  rw [if_neg hne, hp]
  simp [hn]

theorem oversizedDeclared_none_of_parse_none {cl : String}
    (hp : parseGoInt cl = none) :
    oversizedDeclared cl = none := by
  unfold oversizedDeclared
  by_cases h : cl = ""
  · rw [if_pos h]
  · rw [if_neg h, hp]

theorem vr_no_size_log (mode : Mode) (fr : Except String Unit) (v : Option String)
    (resp : HTTPResponse)
    (h1 : goContains (headerGet resp.headers "Content-Type") "application/json" = true)
    (h2 : oversizedDeclared (headerGet resp.headers "Content-Length") = none)
    (h3 : resp.body.length ≤ maxSize) :
    (validateResponse mode fr v resp).readCount = resp.body.length ∧
    ∀ e ∈ (validateResponse mode fr v resp).logs,
      e.msg ≠ "Response too large, skipping validation" := by
  cases fr with
  | error msg =>
    cases hu : isUndocumentedEndpoint msg
    · rw [vr_route_internal mode v resp msg h1 h2 h3 hu]
      refine ⟨rfl, ?_⟩
      intro e he
      simp only [List.mem_singleton] at he
      subst he
      simp
    · rw [vr_route_undoc mode v resp msg h1 h2 h3 hu]
      refine ⟨rfl, ?_⟩
      intro e he
      simp only [List.mem_singleton] at he
      subst he
      simp
  | ok u =>
    cases v with
    | none =>
      rw [vr_valid_pass mode u resp h1 h2 h3]
      refine ⟨rfl, ?_⟩
      intro e he
      simp at he
    | some detail =>
      by_cases hm : mode = Mode.strict
      · subst hm
        rw [vr_valid_fail_strict u resp detail h1 h2 h3]
        refine ⟨rfl, ?_⟩
        intro e he
        simp only [List.mem_singleton] at he
        subst he
        simp
      · rw [vr_valid_fail_nonstrict mode u resp detail h1 h2 h3 hm]
        refine ⟨rfl, ?_⟩
        intro e he
        simp only [List.mem_singleton] at he
        subst he
        simp

theorem vr_readCount_le (mode : Mode) (fr : Except String Unit) (v : Option String)
    (resp : HTTPResponse) :
    (validateResponse mode fr v resp).readCount ≤ maxSize + 1 := by
  by_cases h1 : goContains (headerGet resp.headers "Content-Type") "application/json" = true
  · cases h2 : oversizedDeclared (headerGet resp.headers "Content-Length") with
    | some size =>
      rw [vr_declared_skip mode fr v resp size h1 h2]
      exact Nat.zero_le _
    | none =>
      by_cases h3 : maxSize < resp.body.length
      · rw [vr_actual_skip mode fr v resp h1 h2 h3]
      · have h3' : resp.body.length ≤ maxSize := by omega
        rw [(vr_no_size_log mode fr v resp h1 h2 h3').1]
        omega
  · rw [vr_not_json mode fr v resp (by simpa using h1)]
    exact Nat.zero_le _

/-- C8: for every response whose Content-Type header does not contain the
substring "application/json", the interception hook returns immediately
with no validation, no log entry and no mutation: the status, headers and
body reaching the client are exactly the upstream ones, no bytes of the
stream are consumed and no error is returned, in every mode. -/
theorem contentType_gate_passthrough :
    ∀ (mode : Mode) (fr : Except String Unit) (v : Option String) (resp : HTTPResponse),
      goContains (headerGet resp.headers "Content-Type") "application/json" = false →
      validateResponse mode fr v resp = ⟨resp, [], none, 0⟩ := by
  intro mode fr v resp h
  exact vr_not_json mode fr v resp h

theorem contentType_gate_passthrough_witness :
    goContains (headerGet [("Content-Type", "text/html")] "Content-Type")
      "application/json" = false ∧
    validateResponse Mode.strict (Except.ok ()) (some "detail")
        ⟨200, [("Content-Type", "text/html")], "GET", "/a", "hello".data⟩ =
      ⟨⟨200, [("Content-Type", "text/html")], "GET", "/a", "hello".data⟩, [], none, 0⟩ :=
  ⟨by decide,
   contentType_gate_passthrough Mode.strict (Except.ok ()) (some "detail")
     ⟨200, [("Content-Type", "text/html")], "GET", "/a", "hello".data⟩ (by decide)⟩

/-- C9: for every handler and attribute list, `WithAttrs` returns a new
handler whose bound attributes are the original handler's bound
attributes followed by the supplied ones, with the output sink and the
minimum level preserved; the original handler value is a pure value and
is not modified (emissions through the derived handler use the extended
list, emissions through the original keep using exactly its own list). -/
theorem withAttrs_concat_preserves :
    ∀ (h : ColoredHandler) (a : List (String × String)),
      (h.withAttrs a).attrs = h.attrs ++ a ∧
      (h.withAttrs a).output = h.output ∧
      (h.withAttrs a).level = h.level :=
  fun _ _ => ⟨rfl, rfl, rfl⟩

/-- C2 (the code evaluated at the failing input): when route resolution
fails with the unclassified message `resolver exploded`, the hook emits
exactly one Error-level log entry and leaves the response object
unmodified, but it returns the non-nil internal error
`route finding error: resolver exploded` from the interception hook —
and a response hook that errors makes the surrounding reverse proxy
discard the response and serve its error page instead of passing the
original response through, so the fail-open delivery the claim promises
does not happen. -/
theorem resolver_internal_error_hard_failure :
    isUndocumentedEndpoint "resolver exploded" = false ∧
    validateResponse Mode.warn (Except.error "resolver exploded") none sampleJsonResp =
      ⟨sampleJsonResp,
       [⟨LogLevel.error, "Error finding route",
         [("error", "resolver exploded"), ("method", "GET"), ("path", "/a")]⟩],
       some ("route finding error: " ++ "resolver exploded"), ("[]".data).length⟩ :=
  ⟨by decide,
   vr_route_internal Mode.warn none sampleJsonResp "resolver exploded"
     (by decide) (by decide) (by decide) (by decide)⟩

/-- C7: a resolver failure is classified as an undocumented endpoint
exactly when its message, lowercased, contains one of the six known
patterns as a substring; and for every request whose resolution fails
with such a message, the hook passes the response through unmodified,
returns no error and emits exactly one log entry, which is Warn-level
(never Error-level). -/
theorem undocumented_classification_passthrough :
    (∀ msg : String,
      isUndocumentedEndpoint msg = true ↔
        ∃ p ∈ undocumentedPatterns, p.data <:+: (goToLower msg).data) ∧
    ∀ (mode : Mode) (v : Option String) (resp : HTTPResponse) (msg : String),
      goContains (headerGet resp.headers "Content-Type") "application/json" = true →
      oversizedDeclared (headerGet resp.headers "Content-Length") = none →
      resp.body.length ≤ maxSize →
      isUndocumentedEndpoint msg = true →
      validateResponse mode (Except.error msg) v resp =
        ⟨resp,
         [⟨LogLevel.warn, "Undocumented endpoint",
           [("method", resp.reqMethod), ("path", resp.reqPath)]⟩],
         none, resp.body.length⟩ := by
  constructor
  · intro msg
    simp [isUndocumentedEndpoint, goContains, List.any_eq_true]
  · intro mode v resp msg h1 h2 h3 h4
    exact vr_route_undoc mode v resp msg h1 h2 h3 h4

theorem undocumented_classification_passthrough_witness :
    validateResponse Mode.report (Except.error "Path Not Found") none sampleJsonResp =
      ⟨sampleJsonResp,
       [⟨LogLevel.warn, "Undocumented endpoint", [("method", "GET"), ("path", "/a")]⟩],
       none, ("[]".data).length⟩ :=
  undocumented_classification_passthrough.2 Mode.report none sampleJsonResp "Path Not Found"
    (by decide) (by decide) (by decide) (by decide)

/-- C4: for every response where the mode is Strict and validation fails,
the rewrite sets the status to 500, sets Content-Type to
application/json, sets Content-Length to the exact byte length of the
synthetic body, removes Content-Encoding, Transfer-Encoding, ETag and
Last-Modified, and leaves every other header (any key differing
case-insensitively from those six) unchanged. -/
theorem strict_fail_rewrite_headers :
    ∀ (u : Unit) (resp : HTTPResponse) (d : String),
      goContains (headerGet resp.headers "Content-Type") "application/json" = true →
      oversizedDeclared (headerGet resp.headers "Content-Length") = none →
      resp.body.length ≤ maxSize →
      (validateResponse Mode.strict (Except.ok u) (some d) resp).resp.status = 500 ∧
      headerGet (validateResponse Mode.strict (Except.ok u) (some d) resp).resp.headers
        "Content-Type" = "application/json" ∧
      headerGet (validateResponse Mode.strict (Except.ok u) (some d) resp).resp.headers
        "Content-Length" =
        toString (utf8Len (validateResponse Mode.strict (Except.ok u) (some d) resp).resp.body) ∧
      headerGet (validateResponse Mode.strict (Except.ok u) (some d) resp).resp.headers
        "Content-Encoding" = "" ∧
      headerGet (validateResponse Mode.strict (Except.ok u) (some d) resp).resp.headers
        "Transfer-Encoding" = "" ∧
      headerGet (validateResponse Mode.strict (Except.ok u) (some d) resp).resp.headers
        "ETag" = "" ∧
      headerGet (validateResponse Mode.strict (Except.ok u) (some d) resp).resp.headers
        "Last-Modified" = "" ∧
      ∀ k : String,
        keyEq "Content-Type" k = false → keyEq "Content-Length" k = false →
        keyEq "Content-Encoding" k = false → keyEq "Transfer-Encoding" k = false →
        keyEq "ETag" k = false → keyEq "Last-Modified" k = false →
        headerGet (validateResponse Mode.strict (Except.ok u) (some d) resp).resp.headers k =
          headerGet resp.headers k := by
  intro u resp d h1 h2 h3
  rw [vr_valid_fail_strict u resp d h1 h2 h3]
  refine ⟨rfl, ?_, ?_, ?_, ?_, ?_, ?_, ?_⟩
  · rw [headerGet_del_ne _ _ _ (by decide), headerGet_del_ne _ _ _ (by decide),
      headerGet_del_ne _ _ _ (by decide), headerGet_del_ne _ _ _ (by decide),
      headerGet_set_ne _ _ _ _ (by decide), headerGet_set_self]
  · rw [headerGet_del_ne _ _ _ (by decide), headerGet_del_ne _ _ _ (by decide),
      headerGet_del_ne _ _ _ (by decide), headerGet_del_ne _ _ _ (by decide),
      headerGet_set_self]
  · rw [headerGet_del_ne _ _ _ (by decide), headerGet_del_ne _ _ _ (by decide),
      headerGet_del_ne _ _ _ (by decide), headerGet_del_self]
  · rw [headerGet_del_ne _ _ _ (by decide), headerGet_del_ne _ _ _ (by decide),
      headerGet_del_self]
  · rw [headerGet_del_ne _ _ _ (by decide), headerGet_del_self]
  · rw [headerGet_del_self]
  · intro k hk1 hk2 hk3 hk4 hk5 hk6
    rw [headerGet_del_ne _ _ _ hk6, headerGet_del_ne _ _ _ hk5,
      headerGet_del_ne _ _ _ hk4, headerGet_del_ne _ _ _ hk3,
      headerGet_set_ne _ _ _ _ hk2, headerGet_set_ne _ _ _ _ hk1]

theorem strict_fail_rewrite_headers_witness :
    (validateResponse Mode.strict (Except.ok ()) (some "boom") sampleJsonResp).resp.status = 500 ∧
    headerGet (validateResponse Mode.strict (Except.ok ()) (some "boom")
      sampleJsonResp).resp.headers "ETag" = "" ∧
    headerGet (validateResponse Mode.strict (Except.ok ()) (some "boom")
      sampleJsonResp).resp.headers "X-Request-Id" =
      headerGet sampleJsonResp.headers "X-Request-Id" := by
  have h := strict_fail_rewrite_headers () sampleJsonResp "boom" (by decide) (by decide) (by decide)
  exact ⟨h.1, h.2.2.2.2.2.1,
    h.2.2.2.2.2.2.2 "X-Request-Id" (by decide) (by decide) (by decide) (by decide)
      (by decide) (by decide)⟩

/-- C3 (counterexample): with validation detail `field 'id' required` in
Strict mode, the client-visible body is not the byte sequence
`{"error":"Response validation failed","details":"field 'id' required"}`
claimed by the spec; the actual body has the keys in sorted order,
`details` first, because Go's `json.Marshal` sorts map keys. -/
theorem strict_error_body_key_order_counterexample :
    (validateResponse Mode.strict (Except.ok ())
        (some ("field " ++ sq ++ "id" ++ sq ++ " required")) sampleJsonResp).resp.body ≠
      ("\x7b\"error\":\"Response validation failed\",\"details\":\"field "
        ++ sq ++ "id" ++ sq ++ " required\"\x7d").data ∧
    (validateResponse Mode.strict (Except.ok ())
        (some ("field " ++ sq ++ "id" ++ sq ++ " required")) sampleJsonResp).resp.body =
      ("\x7b\"details\":\"field " ++ sq ++ "id" ++ sq
        ++ " required\",\"error\":\"Response validation failed\"\x7d").data ∧
    (validateResponse Mode.strict (Except.ok ())
        (some ("field " ++ sq ++ "id" ++ sq ++ " required")) sampleJsonResp).resp.status = 500 := by
  refine ⟨?_, ?_, ?_⟩ <;> decide

/-- C3 (amended): in Strict mode, when validation fails with error detail
d, the client-visible body is exactly the JSON object with the two keys
`details` and `error` emitted in sorted key order —
`\x7b"details":<d quoted>,"error":"Response validation failed"\x7d` — and
the status is 500. -/
theorem strict_error_body_amended :
    ∀ (u : Unit) (resp : HTTPResponse) (d : String),
      goContains (headerGet resp.headers "Content-Type") "application/json" = true →
      oversizedDeclared (headerGet resp.headers "Content-Length") = none →
      resp.body.length ≤ maxSize →
      (validateResponse Mode.strict (Except.ok u) (some d) resp).resp.status = 500 ∧
      (validateResponse Mode.strict (Except.ok u) (some d) resp).resp.body =
        ("\x7b\"details\":" ++ goQuote d
          ++ ",\"error\":\"Response validation failed\"\x7d").data := by
  intro u resp d h1 h2 h3
  rw [vr_valid_fail_strict u resp d h1 h2 h3]
  exact ⟨rfl, congrArg String.data (marshal_error_details d)⟩

theorem strict_error_body_amended_witness :
    (validateResponse Mode.strict (Except.ok ()) (some "boom2") sampleJsonResp).resp.status
      = 500 ∧
    (validateResponse Mode.strict (Except.ok ()) (some "boom2") sampleJsonResp).resp.body =
      ("\x7b\"details\":" ++ goQuote "boom2"
        ++ ",\"error\":\"Response validation failed\"\x7d").data :=
  strict_error_body_amended () sampleJsonResp "boom2" (by decide) (by decide) (by decide)

/-- C5: the size gate is strictly greater-than: the hook never consumes
more than maxSize+1 bytes from the stream; a JSON response whose
declared Content-Length parses to more than maxSize is skipped with zero
bytes read; and a body of exactly maxSize bytes (with the declared gate
passing) is not size-skipped — the whole body is read and no
size-skip log entry is emitted. -/
theorem sizeGate_strictly_greater :
    ∀ (mode : Mode) (fr : Except String Unit) (v : Option String) (resp : HTTPResponse),
      (validateResponse mode fr v resp).readCount ≤ maxSize + 1 ∧
      (∀ n : Int,
        goContains (headerGet resp.headers "Content-Type") "application/json" = true →
        parseGoInt (headerGet resp.headers "Content-Length") = some n →
        (maxSize : Int) < n →
        validateResponse mode fr v resp =
          ⟨resp, [⟨LogLevel.warn, "Response too large, skipping validation",
            [("size", toString n)]⟩], none, 0⟩) ∧
      (goContains (headerGet resp.headers "Content-Type") "application/json" = true →
        oversizedDeclared (headerGet resp.headers "Content-Length") = none →
        resp.body.length = maxSize →
        (validateResponse mode fr v resp).readCount = maxSize ∧
        ∀ e ∈ (validateResponse mode fr v resp).logs,
          e.msg ≠ "Response too large, skipping validation") := by
  intro mode fr v resp
  refine ⟨vr_readCount_le mode fr v resp, ?_, ?_⟩
  · intro n h1 hp hn
    exact vr_declared_skip mode fr v resp n h1 (oversizedDeclared_of_parse hp hn)
  · intro h1 h2 h3
    have h3' : resp.body.length ≤ maxSize := le_of_eq h3
    obtain ⟨hrc, hlog⟩ := vr_no_size_log mode fr v resp h1 h2 h3'
    exact ⟨by rw [hrc, h3], hlog⟩

theorem sizeGate_strictly_greater_witness :
    validateResponse Mode.warn (Except.ok ()) none
        ⟨200, [("Content-Type", "application/json"), ("Content-Length", "20971520")],
         "GET", "/a", "[]".data⟩ =
      ⟨⟨200, [("Content-Type", "application/json"), ("Content-Length", "20971520")],
        "GET", "/a", "[]".data⟩,
       [⟨LogLevel.warn, "Response too large, skipping validation",
         [("size", toString (20971520 : Int))]⟩], none, 0⟩ ∧
    (validateResponse Mode.warn (Except.ok ()) none
        ⟨200, [("Content-Type", "application/json")], "GET", "/a",
         List.replicate maxSize 'a'⟩).readCount = maxSize := by
  constructor
  · exact (sizeGate_strictly_greater Mode.warn (Except.ok ()) none
      ⟨200, [("Content-Type", "application/json"), ("Content-Length", "20971520")],
       "GET", "/a", "[]".data⟩).2.1 20971520 (by decide) (by decide) (by decide)
  · exact ((sizeGate_strictly_greater Mode.warn (Except.ok ()) none
      ⟨200, [("Content-Type", "application/json")], "GET", "/a",
       List.replicate maxSize 'a'⟩).2.2 (by decide) (by decide)
      (by simp [List.length_replicate])).1

/-- C10: when a JSON response carries a non-empty Content-Length header
that does not parse as a decimal integer, the declared gate is bypassed:
the body is still read (exactly min(maxSize+1, body length) bytes are
consumed) and only the actual-bytes-read gate decides whether a size
skip happens — it does exactly when the body exceeds maxSize bytes. -/
theorem malformed_contentLength_bypassed :
    ∀ (mode : Mode) (fr : Except String Unit) (v : Option String) (resp : HTTPResponse),
      goContains (headerGet resp.headers "Content-Type") "application/json" = true →
      headerGet resp.headers "Content-Length" ≠ "" →
      parseGoInt (headerGet resp.headers "Content-Length") = none →
      (validateResponse mode fr v resp).readCount = min (maxSize + 1) resp.body.length ∧
      (maxSize < resp.body.length →
        validateResponse mode fr v resp =
          ⟨{ resp with body := resp.body.drop (maxSize + 1) },
           [⟨LogLevel.warn, "Response too large, skipping validation",
             [("size", toString (maxSize + 1))]⟩], none, maxSize + 1⟩) ∧
      (resp.body.length ≤ maxSize →
        ∀ e ∈ (validateResponse mode fr v resp).logs,
          e.msg ≠ "Response too large, skipping validation") := by
  intro mode fr v resp h1 hne hp
  have h2 := oversizedDeclared_none_of_parse_none hp
  refine ⟨?_, ?_, ?_⟩
  · by_cases h3 : maxSize < resp.body.length
    · rw [vr_actual_skip mode fr v resp h1 h2 h3]
      simp only []
      omega
    · have h3' : resp.body.length ≤ maxSize := by omega
      rw [(vr_no_size_log mode fr v resp h1 h2 h3').1]
      omega
  · intro h3
    exact vr_actual_skip mode fr v resp h1 h2 h3
  · intro h3
    exact (vr_no_size_log mode fr v resp h1 h2 h3).2

theorem malformed_contentLength_bypassed_witness :
    (validateResponse Mode.warn (Except.ok ()) none
        ⟨200, [("Content-Type", "application/json"), ("Content-Length", "abc")],
         "GET", "/a", "[]".data⟩).readCount =
      min (maxSize + 1) ("[]".data).length :=
  (malformed_contentLength_bypassed Mode.warn (Except.ok ()) none
    ⟨200, [("Content-Type", "application/json"), ("Content-Length", "abc")],
     "GET", "/a", "[]".data⟩ (by decide) (by decide) (by decide)).1

/-- C1 (the code evaluated at the failing input): a JSON response with no
declared Content-Length and an actual body of maxSize+1 bytes is
size-skipped with the Warn log and no error, but the hook leaves the
already-consumed stream in place instead of restoring the buffered
bytes, so the body that reaches the client is empty — not byte-identical
to the upstream body as the claim states. -/
theorem oversized_actual_body_lost :
    validateResponse Mode.warn (Except.ok ()) none
        ⟨200, [("Content-Type", "application/json")], "GET", "/a",
         List.replicate (maxSize + 1) 'a'⟩ =
      ⟨⟨200, [("Content-Type", "application/json")], "GET", "/a", []⟩,
       [⟨LogLevel.warn, "Response too large, skipping validation",
         [("size", toString (maxSize + 1))]⟩], none, maxSize + 1⟩ ∧
    ([] : List Char) ≠ List.replicate (maxSize + 1) 'a' := by
  constructor
  · have h := vr_actual_skip Mode.warn (Except.ok ()) none
      ⟨200, [("Content-Type", "application/json")], "GET", "/a",
       List.replicate (maxSize + 1) 'a'⟩ (by decide) (by decide)
      (by show maxSize < (List.replicate (maxSize + 1) 'a').length
          rw [List.length_replicate]
          omega)
    rw [h, List.drop_replicate, Nat.sub_self, List.replicate_zero]
  · intro h
    have hlen := congrArg List.length h
    simp only [List.length_nil, List.length_replicate] at hlen
    omega

/-- C6: `parseMode` succeeds exactly on the case variants of "strict",
"warn" and "report" (strings whose per-character lowercasing gives one of
the three canonical values), mapping each variant to its canonical mode;
every other string — the empty string included — yields an error. -/
theorem parseMode_case_insensitive_spec :
    ∀ s : String,
      (parseMode s = Except.ok Mode.strict ↔ s.data.map Char.toLower = "strict".data) ∧
      (parseMode s = Except.ok Mode.warn ↔ s.data.map Char.toLower = "warn".data) ∧
      (parseMode s = Except.ok Mode.report ↔ s.data.map Char.toLower = "report".data) ∧
      ((∃ e, parseMode s = Except.error e) ↔
        ¬(s.data.map Char.toLower = "strict".data ∨ s.data.map Char.toLower = "warn".data ∨
          s.data.map Char.toLower = "report".data)) := by
  intro s
  have key : ∀ t : String, (goToLower s = t) = (s.data.map Char.toLower = t.data) := by
    intro t
    rw [String.ext_iff]
    rfl
  simp only [← key]
  unfold parseMode
  by_cases h1 : goToLower s = "strict"
  · simp [h1]
  by_cases h2 : goToLower s = "warn"
  · simp [h1, h2]
  by_cases h3 : goToLower s = "report"
  · simp [h1, h2, h3]
  · simp [h1, h2, h3]

theorem parseMode_case_insensitive_spec_witness :
    parseMode "STRICT" = Except.ok Mode.strict ∧
    parseMode "WaRn" = Except.ok Mode.warn ∧
    parseMode "Report" = Except.ok Mode.report :=
  ⟨(parseMode_case_insensitive_spec "STRICT").1.mpr (by decide),
   (parseMode_case_insensitive_spec "WaRn").2.1.mpr (by decide),
   (parseMode_case_insensitive_spec "Report").2.2.1.mpr (by decide)⟩

end SpecGate

